import Mathlib

/-!
Verification of the odcs-contract skill scripts: a shallow embedding of
`scripts/validate_contract.py` (schema location, document validation and
report formatting) and `scripts/new_contract.py` (contract scaffolding),
together with theorems about the properties the tools are meant to have.

Effects (filesystem reads, YAML/JSON parsing, HTTP fetches, the JSON-Schema
validator library) are modelled by an explicit environment of functions;
the scripts' own logic is translated line by line from the Python source.
-/

/-- A parsed YAML/JSON document tree (what `yaml.safe_load` / `json.load`
produce): `null` is Python `None`. -/
inductive Yaml where
  | null : Yaml
  | bool : Bool → Yaml
  | num : Int → Yaml
  | str : String → Yaml
  | arr : List Yaml → Yaml
  | map : List (String × Yaml) → Yaml

/-- A JSON schema document is structurally the same kind of tree. -/
abbrev Schema := Yaml

/-- One element of a `jsonschema` error's `absolute_path`: a property name
or an array index. -/
inductive PathElem where
  | key : String → PathElem
  | idx : Nat → PathElem
deriving DecidableEq, Repr

/-- Python `str(p)` on a path element. -/
def PathElem.toStr : PathElem → String
  | .key s => s
  | .idx n => toString n

/-- A `jsonschema.ValidationError` as the script consumes it:
`absolute_path` and `message`. -/
structure ValidationError where
  absolutePath : List PathElem
  message : String
deriving DecidableEq, Repr

/-- Result of `urllib.request.urlopen` followed by `json.loads`: success,
a `URLError`, or a `json.JSONDecodeError` (each carrying its message). -/
inductive FetchResult where
  | ok : Schema → FetchResult
  | urlError : String → FetchResult
  | jsonError : String → FetchResult

/-- The effectful environment `validate_contract.py` runs in: filesystem
existence and `Path.resolve`, `yaml.safe_load` of the file at a path
(`Except` error = `yaml.YAMLError` message), `json.load` of the file at a
path (`Except` error = `json.JSONDecodeError` message), remote fetch+parse
of a URL, the outcome of `urllib.request.urlretrieve` of the canonical URL
into a fresh temp file (ok = temp file path, error = `URLError` message),
and the library validator `Draft201909Validator(schema).iter_errors`. -/
structure Env where
  pathExists : String → Bool
  resolve : String → String
  yamlLoad : String → Except String Yaml
  jsonLoadFile : String → Except String Schema
  urlFetch : String → FetchResult
  download : Except String String
  iterErrors : Schema → Yaml → List ValidationError

/-- `SCHEMA_URL` from validate_contract.py. -/
def SCHEMA_URL : String :=
  "https://raw.githubusercontent.com/bitol-io/open-data-contract-standard/main/schema/odcs-json-schema-v3.1.0.json"

/-- `local_paths` from `find_schema_file`: the conventional schema
locations, versioned filename first, then the latest alias. -/
def local_paths : List String :=
  ["schema/odcs-json-schema-v3.1.0.json", "schema/odcs-json-schema-latest.json"]

/-- The `for path in local_paths` loop of `find_schema_file`: resolve each
candidate and return the first resolved path that exists. -/
def findLocalSchema (env : Env) : List String → Option String
  | [] => none
  | p :: rest =>
    let resolved := env.resolve p
    if env.pathExists resolved then some resolved else findLocalSchema env rest

/-- `find_schema_file()`: probe the conventional local paths, else download
from GitHub into a temp file. Returns the lines printed to stdout together
with the result (`none` models Python `None`). -/
def find_schema_file (env : Env) : List String × Option String :=
  match findLocalSchema env local_paths with
  | some p => ([], some p)
  | none =>
    match env.download with
    | .ok tmp => (["Downloading schema from GitHub..."], some tmp)
    | .error e =>
      (["Downloading schema from GitHub...",
        "Warning: Could not download schema: " ++ e], none)

/-- `str(schema_path).startswith(("http://", "https://"))` (Python
`startswith`, modelled on the character sequences). -/
def startsWithHttp (s : String) : Bool :=
  ("http://").data.isPrefixOf s.data || ("https://").data.isPrefixOf s.data

/-- Lines 79–91 of validate_contract.py ("Find or validate schema path"):
decide whether the schema reference is a URL (`Bool` flag) and which
path/URL to load, or fail with the early-return `(is_valid, errors)` pair. -/
def resolveSchemaRef (env : Env) (schema_path : Option String) :
    Except (Bool × List String) (Bool × String) :=
  match schema_path with
  | some sp =>
    if startsWithHttp sp then .ok (true, sp)
    else if !env.pathExists sp then
      .error (false, ["Schema file not found: " ++ sp])
    else .ok (false, sp)
  | none =>
    match (find_schema_file env).2 with
    | some p => .ok (false, p)
    | none =>
      .error (false,
        ["Could not find ODCS JSON schema. Use --schema <path-or-url> or download from:\n  "
          ++ SCHEMA_URL])

/-- Lines 100–111 of validate_contract.py ("Load schema"): fetch and parse
the schema from a URL, or parse the local file, mapping the caught
exceptions to the script's error strings. -/
def loadSchema (env : Env) (schema_is_url : Bool) (sp : String) : Except String Schema :=
  if schema_is_url then
    match env.urlFetch sp with
    | .ok s => .ok s
    | .jsonError e => .error ("Invalid JSON schema: " ++ e)
    | .urlError e => .error ("Could not download schema from " ++ sp ++ ": " ++ e)
  else
    match env.jsonLoadFile sp with
    | .ok s => .ok s
    | .error e => .error ("Invalid JSON schema: " ++ e)

/-- Lines 113–126 of validate_contract.py ("Validate" and "Format errors"):
one full `iter_errors` pass over the whole document, then the
path-annotated rendering of each collected violation. -/
def runValidation (env : Env) (schema : Schema) (contract : Yaml) : Bool × List String :=
  let errors := env.iterErrors schema contract
  if errors.isEmpty then (true, [])
  else
    (false, errors.map (fun error =>
      let path :=
        if error.absolutePath.isEmpty then "root"
        else String.intercalate (" -> ") (error.absolutePath.map PathElem.toStr)
      "  [" ++ path ++ "] " ++ error.message))

/-- `validate_contract(contract_path, schema_path)`. Returns the
`(is_valid, errors)` tuple of the Python function: contract existence
check, then the three sections above in the source's order (schema
reference resolution, contract YAML load, schema load, validation). -/
def validate_contract (env : Env) (contract_path : String)
    (schema_path : Option String) : Bool × List String :=
  if !env.pathExists contract_path then
    (false, ["Contract file not found: " ++ contract_path])
  else
    match resolveSchemaRef env schema_path with
    | .error r => r
    | .ok (schema_is_url, sp) =>
      match env.yamlLoad contract_path with
      | .error e => (false, ["Invalid YAML: " ++ e])
      | .ok contract =>
        match loadSchema env schema_is_url sp with
        | .error e => (false, [e])
        | .ok schema => runValidation env schema contract

/-- The exit code chosen by `main()` in validate_contract.py:
`sys.exit(0)` when `is_valid`, `sys.exit(1)` otherwise. -/
def validateMainExit (env : Env) (contract : String)
    (schemaArg : Option String) : Nat :=
  if (validate_contract env contract schemaArg).1 then 0 else 1

/-! ## Embedding of scripts/new_contract.py -/

/-- Python `Path(p).name`: the final path component. -/
def pathName (p : String) : String :=
  (p.splitOn ("/")).getLastD p

/-- Python `Path(p).stem`: the final component without its last suffix; a
dot counts as starting a suffix only strictly inside the name. -/
def pathStem (p : String) : String :=
  let nm := pathName p
  match nm.data.reverse.findIdx? (fun c => c = '.') with
  | none => nm
  | some r =>
    let i := nm.length - 1 - r
    if 0 < i ∧ i < nm.length - 1 then String.mk (nm.data.take i) else nm

/-- Python `Path(p).parent` (as a string; `"."` for a bare filename). -/
def parentPath (p : String) : String :=
  let cs := (p.splitOn ("/")).dropLast
  if cs.isEmpty then "." else String.intercalate ("/") cs

/-- The directories `mkdir(parents=True)` brings into existence for a
target directory: every prefix of its component list. -/
def ancestorDirs (dir : String) : List String :=
  let cs := dir.splitOn ("/")
  (List.range cs.length).map (fun k => String.intercalate ("/") (cs.take (k + 1)))

/-- The filesystem state new_contract.py acts on: file contents by path and
the set of directories known to exist. -/
structure GenFS where
  files : String → Option String
  dirs : List String

/-- `output_path.parent.mkdir(parents=True, exist_ok=True)`. -/
def mkdirParents (fs : GenFS) (dir : String) : GenFS :=
  { fs with dirs := fs.dirs ++ (ancestorDirs dir).filter (fun d => !fs.dirs.contains d) }

/-- Python `str.title()`: alphabetic characters are uppercased when they
follow a non-alphabetic character and lowercased otherwise. -/
def titleCase (s : String) : String :=
  String.mk ((s.data.foldl (fun acc c =>
    let c2 := if c.isAlpha then (if acc.2 then c.toLower else c.toUpper) else c
    (acc.1 ++ [c2], c.isAlpha)) (([] : List Char), false)).1)

/-- Python `x or dflt` for an optional string argument: `None` and the
empty string both fall back to the default. -/
def pyOrStr (v : Option String) (dflt : String) : String :=
  match v with
  | some s => if s = "" then dflt else s
  | none => dflt

/-- `MINIMAL_TEMPLATE.format(id=..., table_name=...)`. -/
def MINIMAL_TEMPLATE (id table_name : String) : String :=
  "apiVersion: v3.1.0\nkind: DataContract\nid: " ++ id
    ++ "\nversion: 1.0.0\nstatus: draft\nschema:\n  - name: " ++ table_name
    ++ "\n    logicalType: object\n    description: TODO - Add table description\n"
    ++ "    properties:\n      - name: id\n        logicalType: integer\n"
    ++ "        primaryKey: true\n        required: true\n        description: Primary key\n"

/-- `FULL_TEMPLATE.format(...)` with all eight placeholders substituted. -/
def FULL_TEMPLATE (id timestamp date name domain data_product tenant table_name : String) :
    String :=
  "# ODCS v3.1.0 Data Contract\n# Generated: " ++ timestamp
    ++ "\n\napiVersion: v3.1.0\nkind: DataContract\nid: " ++ id
    ++ "\nversion: 1.0.0\nstatus: draft\n\n# Metadata\nname: " ++ name
    ++ "\ndomain: " ++ domain ++ "\ndataProduct: " ++ data_product
    ++ "\ntenant: " ++ tenant ++ "\ntags: []\n\ndescription:\n"
    ++ "  purpose: TODO - Describe the intended use of this data\n"
    ++ "  limitations: TODO - Document any constraints or limitations\n"
    ++ "  usage: TODO - Describe recommended usage patterns\n\n"
    ++ "# Schema Definition\nschema:\n  - name: " ++ table_name
    ++ "\n    id: " ++ table_name ++ "_tbl\n    logicalType: object\n"
    ++ "    physicalType: table\n    businessName: TODO - Business friendly name\n"
    ++ "    description: TODO - Add table description\n"
    ++ "    dataGranularityDescription: TODO - e.g., One row per transaction\n\n"
    ++ "    properties:\n      - name: id\n        id: id_col\n"
    ++ "        logicalType: integer\n        physicalType: bigint\n"
    ++ "        primaryKey: true\n        primaryKeyPosition: 1\n"
    ++ "        required: true\n        unique: true\n"
    ++ "        description: Unique identifier\n        classification: public\n\n"
    ++ "      # TODO: Add more columns\n      # - name: column_name\n"
    ++ "      #   logicalType: string|number|integer|date|timestamp|boolean\n"
    ++ "      #   physicalType: varchar(255)\n      #   required: true|false\n"
    ++ "      #   description: Column description\n\n"
    ++ "# Data Quality Rules (optional)\n# quality:\n#   - type: library\n"
    ++ "#     metric: rowCount\n#     mustBeGreaterThan: 0\n"
    ++ "#     dimension: completeness\n#     severity: error\n\n"
    ++ "# Server Configuration (optional)\n# servers:\n#   - server: my-database\n"
    ++ "#     type: postgres\n#     host: localhost\n#     port: 5432\n"
    ++ "#     database: mydb\n#     schema: public\n#     environment: dev\n\n"
    ++ "# SLA Properties (optional)\n# slaProperties:\n#   - property: latency\n"
    ++ "#     value: 24\n#     unit: d\n#   - property: retention\n"
    ++ "#     value: 7\n#     unit: y\n\n"
    ++ "# Team (optional)\n# team:\n#   name: data-team\n#   members:\n"
    ++ "#     - username: owner@company.com\n#       role: Owner\n"
    ++ "#       dateIn: \"" ++ date ++ "\"\n\n"
    ++ "# Roles (optional)\n# roles:\n#   - role: read_access\n#     access: read\n"
    ++ "#     description: Read access for analytics\n\n"
    ++ "# Support Channels (optional)\n# support:\n#   - channel: \"#data-help\"\n"
    ++ "#     tool: slack\n#     scope: interactive\n\ncontractCreatedTs: \""
    ++ timestamp ++ "\"\n"

/-- Per-run generated values (`uuid.uuid4()`, `datetime.now(...)`) and the
outcome of the filesystem write attempt: `writeFails = some e` models an
exception raised by `write_text` and caught by the `except` clause. -/
structure GenEnv where
  contract_id : String
  timestamp : String
  date : String
  writeFails : Option String

/-- Result of one `generate_contract` call: the filesystem afterwards, the
Python return value (created path or `None`) and the printed lines. -/
structure GenResult where
  fs : GenFS
  result : Option String
  output : List String

/-- `generate_contract(output_path, name, domain, minimal)`: refuse a
pre-existing file, derive names from the filename, fill the selected
template, create parent directories and write the file. -/
def generate_contract (genv : GenEnv) (fs : GenFS) (output_path : String)
    (name domain : Option String) (minimal : Bool) : GenResult :=
  if (fs.files output_path).isSome then
    ⟨fs, none, ["❌ Error: File already exists: " ++ output_path]⟩
  else
    let contract_id := genv.contract_id
    let timestamp := genv.timestamp
    let date := genv.date
    let base_name :=
      (((pathStem output_path).replace (".odcs") ("")).replace ("-") ("_")).replace (" ") ("_")
    let table_name := if base_name = "" then "my_table" else base_name
    let name := pyOrStr name (titleCase (base_name.replace ("_") (" ")))
    let domain := pyOrStr domain ("TODO")
    let data_product := base_name
    let tenant := "TODO"
    let content :=
      match minimal with
      | true => MINIMAL_TEMPLATE contract_id table_name
      | false => FULL_TEMPLATE contract_id timestamp date name domain data_product tenant table_name
    let fs1 := mkdirParents fs (parentPath output_path)
    match genv.writeFails with
    | some e => ⟨fs1, none, ["❌ Error writing file: " ++ e]⟩
    | none =>
      let fs2 : GenFS :=
        ⟨fun q => if q = output_path then some content else fs1.files q, fs1.dirs⟩
      ⟨fs2, some output_path, ["✅ Created contract: " ++ output_path]⟩

/-- The exit code chosen by `main()` in new_contract.py:
`sys.exit(0 if result else 1)`. -/
def newContractMainExit (genv : GenEnv) (fs : GenFS) (output : String)
    (name domain : Option String) (minimal : Bool) : Nat :=
  if (generate_contract genv fs output name domain minimal).result.isSome then 0 else 1


/-! ## Failure-classification predicates (formalising the spec's error
taxonomy over the embedded program) -/

/-- The same environment with the schema-validator library replaced:
used to state that a result was produced without consulting the
validator. -/
def envWithValidator (env : Env) (f : Schema → Yaml → List ValidationError) : Env :=
  ⟨env.pathExists, env.resolve, env.yamlLoad, env.jsonLoadFile,
   env.urlFetch, env.download, f⟩

/-- The schema reference cannot be resolved to a loadable source: an
explicit non-URL path that does not exist, or (with no explicit
reference) no conventional path and a failed download. -/
def schemaResolutionFails (env : Env) : Option String → Prop
  | some sp => startsWithHttp sp = false ∧ env.pathExists sp = false
  | none => (find_schema_file env).2 = none

/-- The schema source resolves but its content fails to fetch or parse. -/
def schemaLoadFails (env : Env) : Option String → Prop
  | some sp =>
      (startsWithHttp sp = true
        ∧ ((∃ e, env.urlFetch sp = .urlError e) ∨ (∃ e, env.urlFetch sp = .jsonError e)))
    ∨ (startsWithHttp sp = false ∧ env.pathExists sp = true
        ∧ ∃ e, env.jsonLoadFile sp = .error e)
  | none => ∃ p, (find_schema_file env).2 = some p ∧ ∃ e, env.jsonLoadFile p = .error e

/-- An input on which the run hits a load or resolution failure: missing
or unparsable contract, unresolvable schema, or unparsable schema. -/
def loadFailureInput (env : Env) (c : String) (sArg : Option String) : Prop :=
  env.pathExists c = false
  ∨ (∃ e, env.yamlLoad c = .error e)
  ∨ schemaResolutionFails env sArg
  ∨ schemaLoadFails env sArg

/-- The six load/resolution error messages the script can return, each
textually distinct from a rendered violation line. -/
def isLoadErrorMessage (m : String) : Prop :=
  (∃ s, m = "Contract file not found: " ++ s)
  ∨ (∃ s, m = "Schema file not found: " ++ s)
  ∨ m = "Could not find ODCS JSON schema. Use --schema <path-or-url> or download from:\n  "
      ++ SCHEMA_URL
  ∨ (∃ s, m = "Invalid YAML: " ++ s)
  ∨ (∃ s, m = "Invalid JSON schema: " ++ s)
  ∨ (∃ s, m = "Could not download schema from " ++ s)

/-! ## Concrete environments used by witnesses and counterexamples -/

/-- An environment where no path exists at all. -/
def envAllMissing : Env :=
  ⟨fun _ => false, fun p => "/abs/" ++ p, fun _ => .error "unused",
   fun _ => .error "unused", fun _ => .urlError "unused", .error "unused", fun _ _ => []⟩

/-- An environment where only the contract file exists, the network is
down, and nothing else is on disk. -/
def envContractOnly : Env :=
  ⟨fun p => p == "contract.odcs.yaml", fun p => "/abs/" ++ p, fun _ => .ok .null,
   fun _ => .ok (.map []), fun _ => .urlError "network unreachable",
   .error "timed out", fun _ _ => []⟩

/-- An environment where every path exists, both documents parse, and the
schema validator reports two violations on a null document. -/
def envHappy : Env :=
  ⟨fun _ => true, fun p => "/abs/" ++ p, fun _ => .ok .null,
   fun _ => .ok (.map []), fun _ => .ok (.map []), .ok "/tmp/tmpq1w2e3.json",
   fun _ doc => match doc with
     | .null => [⟨[], "None is not of type 'object'"⟩,
                 ⟨[.key "schema", .idx 0], "'name' is a required property"⟩]
     | _ => []⟩

/-- An environment whose validator reports exactly one root-level
violation. -/
def envOneRootError : Env :=
  ⟨fun _ => true, fun p => "/abs/" ++ p, fun _ => .ok .null,
   fun _ => .ok (.map []), fun _ => .ok (.map []), .ok "/tmp/tmpq1w2e3.json",
   fun _ _ => [⟨[], "boom"⟩]⟩

/-- Fixed generated values for scaffold-generator runs. -/
def genvW : GenEnv :=
  ⟨"00000000-0000-4000-8000-000000000000", "2026-10-12T00:00:00+00:00", "2026-10-12", none⟩

/-- An empty filesystem for scaffold-generator runs. -/
def fsEmpty : GenFS := ⟨fun _ => none, []⟩

/-! ## Helper lemmas -/

/-- The first character of a concatenation is the first character of a
nonempty left part. -/
lemma head_data_append (s t : String) (c : Char) (h : s.data.head? = some c) :
    (s ++ t).data.head? = some c := by
  rw [String.data_append]
  cases hs : s.data with
  | nil => rw [hs] at h; simp at h
  | cons a l => rw [hs] at h; simpa using h

/-- Every formatted violation line starts with a space. -/
lemma violation_line_head (p m : String) :
    ("  [" ++ p ++ "] " ++ m).data.head? = some ' ' := by
  apply head_data_append
  apply head_data_append
  apply head_data_append
  rfl

/-- The validation+formatting section returns `true` iff it renders no
lines. -/
lemma runValidation_fst_iff (env : Env) (sch : Schema) (doc : Yaml) :
    (runValidation env sch doc).1 = true ↔ (runValidation env sch doc).2 = [] := by
  simp only [runValidation]
  split
  · simp
  · next h => simp_all [List.isEmpty_iff, List.map_eq_nil_iff]

/-- Every early-return pair produced by schema-reference resolution is
`(false, [single message])`. -/
lemma resolveSchemaRef_error_shape (env : Env) (sArg : Option String)
    (r : Bool × List String) (h : resolveSchemaRef env sArg = .error r) :
    ∃ m, r.1 = false ∧ r.2 = [m] := by
  rcases sArg with _ | sp
  · simp only [resolveSchemaRef] at h
    rcases hf : (find_schema_file env).2 with _ | p
    · simp only [hf, Except.error.injEq] at h
      subst h
      exact ⟨_, rfl, rfl⟩
    · simp [hf] at h
  · simp only [resolveSchemaRef] at h
    split at h
    · simp at h
    · split at h
      · simp only [Except.error.injEq] at h
        subst h
        exact ⟨_, rfl, rfl⟩
      · simp at h

/-! ## Claim theorems -/

/-- Claim C2: for every environment, contract path and schema argument, the
`(is_valid, errors)` result of `validate_contract` satisfies the
ValidationOutcome invariant: `is_valid` is true iff the violation list is
empty. -/
theorem validate_outcome_invariant (env : Env) (c : String) (sArg : Option String) :
    (validate_contract env c sArg).1 = true ↔ (validate_contract env c sArg).2 = [] := by
  unfold validate_contract
  split
  · simp
  · split
    · next r heq =>
      rcases resolveSchemaRef_error_shape env sArg r heq with ⟨m, hb, hes⟩
      simp [hb, hes]
    · split
      · simp
      · split
        · simp
        · exact runValidation_fst_iff env _ _

/-- Once the contract exists, the schema reference resolves, and both loads
succeed, `validate_contract` is exactly the validation section applied to
the parsed document. -/
lemma validate_contract_ok_eq (env : Env) (c : String) (sArg : Option String)
    (b : Bool) (sp : String) (doc : Yaml) (sch : Schema)
    (hc : env.pathExists c = true)
    (hr : resolveSchemaRef env sArg = .ok (b, sp))
    (hy : env.yamlLoad c = .ok doc)
    (hl : loadSchema env b sp = .ok sch) :
    validate_contract env c sArg = runValidation env sch doc := by
  unfold validate_contract
  rw [hc]
  simp only [Bool.not_true, Bool.false_eq_true, if_false, hr, hy, hl]

/-- An explicit non-URL schema reference that exists resolves to itself,
flagged as local. -/
lemma resolveSchemaRef_local (env : Env) (sp : String)
    (hurl : startsWithHttp sp = false) (hsp : env.pathExists sp = true) :
    resolveSchemaRef env (some sp) = .ok (false, sp) := by
  simp [resolveSchemaRef, hurl, hsp]

/-- A local schema file that parses yields its parsed schema. -/
lemma loadSchema_local_ok (env : Env) (sp : String) (sch : Schema)
    (hj : env.jsonLoadFile sp = .ok sch) : loadSchema env false sp = .ok sch := by
  simp [loadSchema, hj]

/-- Claim C3: when the document and the schema both load successfully, the
validator collects every violation of the single full `iter_errors` pass —
one rendered entry per reported violation, so it is not fail-fast — and
`is_valid` is exactly "the violation count is zero". -/
theorem validate_collects_all_violations (env : Env) (c sp : String) (doc : Yaml)
    (sch : Schema) (hc : env.pathExists c = true) (hurl : startsWithHttp sp = false)
    (hsp : env.pathExists sp = true) (hy : env.yamlLoad c = .ok doc)
    (hj : env.jsonLoadFile sp = .ok sch) :
    (validate_contract env c (some sp)).2.length = (env.iterErrors sch doc).length
      ∧ (validate_contract env c (some sp)).1 = ((env.iterErrors sch doc).length == 0) := by
  rw [validate_contract_ok_eq env c (some sp) false sp doc sch hc
    (resolveSchemaRef_local env sp hurl hsp) hy (loadSchema_local_ok env sp sch hj)]
  simp only [runValidation]
  split
  · next h =>
    simp [List.isEmpty_iff.mp h]
  · next h =>
    have h' : env.iterErrors sch doc ≠ [] := by
      simpa [List.isEmpty_iff] using h
    simp [List.length_map, List.length_eq_zero, h']

/-- Witness for Claim C3 at a concrete environment with two reported
violations. -/
theorem validate_collects_all_violations_witness :
    (validate_contract envHappy ("contract.odcs.yaml") (some ("schema.json"))).2.length
        = (envHappy.iterErrors (.map []) .null).length
      ∧ (validate_contract envHappy ("contract.odcs.yaml") (some ("schema.json"))).1
        = ((envHappy.iterErrors (.map []) .null).length == 0) :=
  validate_collects_all_violations envHappy ("contract.odcs.yaml") ("schema.json")
    .null (.map []) rfl (by decide) rfl rfl rfl

/-- Every line rendered by the validation section starts with a space (the
two-space indent of the violation format). -/
lemma runValidation_lines_head (env : Env) (sch : Schema) (doc : Yaml) :
    ∀ m ∈ (runValidation env sch doc).2, m.data.head? = some ' ' := by
  simp only [runValidation]
  split
  · simp
  · intro m hm
    simp only at hm
    rcases List.mem_map.mp hm with ⟨err, _, rfl⟩
    exact violation_line_head _ _

/-- Claim C10: a contract file that exists and parses successfully to YAML
null (e.g. an empty file) is not treated as a load failure: the validator
proceeds to run the schema validation section on the null value, and in
particular never reports an "Invalid YAML" parse abort. -/
theorem validate_null_document_proceeds (env : Env) (c sp : String) (sch : Schema)
    (hc : env.pathExists c = true) (hurl : startsWithHttp sp = false)
    (hsp : env.pathExists sp = true) (hy : env.yamlLoad c = .ok .null)
    (hj : env.jsonLoadFile sp = .ok sch) :
    validate_contract env c (some sp) = runValidation env sch .null
      ∧ ∀ e, validate_contract env c (some sp) ≠ (false, ["Invalid YAML: " ++ e]) := by
  have heq := validate_contract_ok_eq env c (some sp) false sp .null sch hc
    (resolveSchemaRef_local env sp hurl hsp) hy (loadSchema_local_ok env sp sch hj)
  refine ⟨heq, ?_⟩
  intro e hcontra
  have hmem : ("Invalid YAML: " ++ e) ∈ (runValidation env sch .null).2 := by
    rw [heq] at hcontra
    rw [hcontra]
    exact List.mem_singleton_self _
  have hsp' := runValidation_lines_head env sch .null _ hmem
  have hI : ("Invalid YAML: " ++ e).data.head? = some 'I' :=
    head_data_append _ _ _ rfl
  rw [hsp'] at hI
  simp at hI

/-- Witness for Claim C10 at a concrete environment whose validator
reports violations on a null document. -/
theorem validate_null_document_proceeds_witness :
    validate_contract envHappy ("contract.odcs.yaml") (some ("schema.json"))
        = runValidation envHappy (.map []) .null
      ∧ ∀ e, validate_contract envHappy ("contract.odcs.yaml") (some ("schema.json"))
        ≠ (false, ["Invalid YAML: " ++ e]) :=
  validate_null_document_proceeds envHappy ("contract.odcs.yaml") ("schema.json")
    (.map []) rfl (by decide) rfl rfl rfl

/-- Claim C5: with no explicit schema reference, `find_schema_file` probes
the two conventional local paths in their fixed order (versioned filename
first, then the latest alias), returning the first that exists resolved to
an absolute path, and it consults the remote download only when neither
exists (in which case the download's outcome decides the result). -/
theorem schema_probe_order (env : Env) :
    (env.pathExists (env.resolve ("schema/odcs-json-schema-v3.1.0.json")) = true →
      find_schema_file env = ([], some (env.resolve ("schema/odcs-json-schema-v3.1.0.json"))))
    ∧ (env.pathExists (env.resolve ("schema/odcs-json-schema-v3.1.0.json")) = false →
       env.pathExists (env.resolve ("schema/odcs-json-schema-latest.json")) = true →
      find_schema_file env = ([], some (env.resolve ("schema/odcs-json-schema-latest.json"))))
    ∧ (env.pathExists (env.resolve ("schema/odcs-json-schema-v3.1.0.json")) = false →
       env.pathExists (env.resolve ("schema/odcs-json-schema-latest.json")) = false →
      (∀ tmp, env.download = .ok tmp →
        find_schema_file env = (["Downloading schema from GitHub..."], some tmp))
      ∧ (∀ e, env.download = .error e →
        find_schema_file env = (["Downloading schema from GitHub...",
          "Warning: Could not download schema: " ++ e], none))) := by
  refine ⟨fun h1 => ?_, fun h1 h2 => ?_, fun h1 h2 => ⟨fun tmp hd => ?_, fun e hd => ?_⟩⟩
  all_goals simp [find_schema_file, findLocalSchema, local_paths, h1]
  all_goals simp [*]

/-- Witness for Claim C5: in `envHappy` every path exists, so the probe
returns the resolved versioned filename. -/
theorem schema_probe_order_witness :
    find_schema_file envHappy
      = ([], some (envHappy.resolve ("schema/odcs-json-schema-v3.1.0.json"))) :=
  (schema_probe_order envHappy).1 rfl

/-- Claim C6: when no conventional local schema exists and the remote
download from the canonical URL fails, the failure is reported as a
non-fatal warning line (the run continues), followed by a final fatal
error whose message ends with the canonical schema URL, and the process
exits non-zero. -/
theorem download_failure_warning_then_fatal (env : Env) (c e : String)
    (hc : env.pathExists c = true)
    (h1 : env.pathExists (env.resolve ("schema/odcs-json-schema-v3.1.0.json")) = false)
    (h2 : env.pathExists (env.resolve ("schema/odcs-json-schema-latest.json")) = false)
    (hd : env.download = .error e) :
    (find_schema_file env).1
        = ["Downloading schema from GitHub...", "Warning: Could not download schema: " ++ e]
      ∧ (find_schema_file env).2 = none
      ∧ validate_contract env c none = (false,
          ["Could not find ODCS JSON schema. Use --schema <path-or-url> or download from:\n  "
            ++ SCHEMA_URL])
      ∧ (∃ pre, ("Could not find ODCS JSON schema. Use --schema <path-or-url> or download from:\n  "
            ++ SCHEMA_URL) = pre ++ SCHEMA_URL)
      ∧ validateMainExit env c none = 1 := by
  have hfind : find_schema_file env = (["Downloading schema from GitHub...",
      "Warning: Could not download schema: " ++ e], none) := by
    simp [find_schema_file, findLocalSchema, local_paths, h1, h2, hd]
  have hres : resolveSchemaRef env none = .error (false,
      ["Could not find ODCS JSON schema. Use --schema <path-or-url> or download from:\n  "
        ++ SCHEMA_URL]) := by
    simp [resolveSchemaRef, hfind]
  have hval : validate_contract env c none = (false,
      ["Could not find ODCS JSON schema. Use --schema <path-or-url> or download from:\n  "
        ++ SCHEMA_URL]) := by
    unfold validate_contract
    rw [hc]
    simp only [Bool.not_true, Bool.false_eq_true, if_false, hres]
  refine ⟨by rw [hfind], by rw [hfind], hval, ⟨_, rfl⟩, ?_⟩
  unfold validateMainExit
  rw [hval]
  simp

/-- Witness for Claim C6: only the contract file exists and the network is
down. -/
theorem download_failure_warning_then_fatal_witness :
    (find_schema_file envContractOnly).1
        = ["Downloading schema from GitHub...",
           "Warning: Could not download schema: " ++ "timed out"]
      ∧ (find_schema_file envContractOnly).2 = none
      ∧ validate_contract envContractOnly ("contract.odcs.yaml") none = (false,
          ["Could not find ODCS JSON schema. Use --schema <path-or-url> or download from:\n  "
            ++ SCHEMA_URL])
      ∧ (∃ pre, ("Could not find ODCS JSON schema. Use --schema <path-or-url> or download from:\n  "
            ++ SCHEMA_URL) = pre ++ SCHEMA_URL)
      ∧ validateMainExit envContractOnly ("contract.odcs.yaml") none = 1 :=
  download_failure_warning_then_fatal envContractOnly ("contract.odcs.yaml") ("timed out")
    (by decide) (by decide) (by decide) rfl

/-- When schema-reference resolution fails, `validate_contract` returns its
early-return pair unchanged. -/
lemma validate_contract_resolveErr_eq (env : Env) (c : String) (sArg : Option String)
    (r : Bool × List String) (hc : env.pathExists c = true)
    (hr : resolveSchemaRef env sArg = .error r) :
    validate_contract env c sArg = r := by
  unfold validate_contract
  rw [hc]
  simp only [Bool.not_true, Bool.false_eq_true, if_false, hr]

/-- When the schema itself fails to load, `validate_contract` returns that
single load-error message. -/
lemma validate_contract_loadErr_eq (env : Env) (c : String) (sArg : Option String)
    (b : Bool) (sp : String) (doc : Yaml) (e : String)
    (hc : env.pathExists c = true) (hr : resolveSchemaRef env sArg = .ok (b, sp))
    (hy : env.yamlLoad c = .ok doc) (hl : loadSchema env b sp = .error e) :
    validate_contract env c sArg = (false, [e]) := by
  unfold validate_contract
  rw [hc]
  simp only [Bool.not_true, Bool.false_eq_true, if_false, hr, hy, hl]

/-- Claim C4: an explicit schema reference is always used and no fallback
is attempted: an `http(s)` reference is fetched remotely, a non-URL
reference is read as a local file, a missing local reference fails
immediately with the distinct "Schema file not found" error for every
environment (including ones where the conventional paths or the download
would have resolved), and the download outcome never influences the
result. -/
theorem explicit_schema_no_fallback (env : Env) (c sp : String)
    (hc : env.pathExists c = true) :
    (startsWithHttp sp = false → env.pathExists sp = false →
      validate_contract env c (some sp) = (false, ["Schema file not found: " ++ sp]))
    ∧ (∀ doc, env.yamlLoad c = .ok doc → startsWithHttp sp = true →
        ((∀ sch, env.urlFetch sp = .ok sch →
            validate_contract env c (some sp) = runValidation env sch doc)
         ∧ (∀ e, env.urlFetch sp = .urlError e →
            validate_contract env c (some sp)
              = (false, ["Could not download schema from " ++ sp ++ ": " ++ e]))
         ∧ (∀ e, env.urlFetch sp = .jsonError e →
            validate_contract env c (some sp) = (false, ["Invalid JSON schema: " ++ e]))))
    ∧ (∀ doc, env.yamlLoad c = .ok doc → startsWithHttp sp = false →
        env.pathExists sp = true →
        ((∀ sch, env.jsonLoadFile sp = .ok sch →
            validate_contract env c (some sp) = runValidation env sch doc)
         ∧ (∀ e, env.jsonLoadFile sp = .error e →
            validate_contract env c (some sp) = (false, ["Invalid JSON schema: " ++ e]))))
    ∧ (∀ d, validate_contract ⟨env.pathExists, env.resolve, env.yamlLoad,
          env.jsonLoadFile, env.urlFetch, d, env.iterErrors⟩ c (some sp)
        = validate_contract env c (some sp)) := by
  refine ⟨fun hurl hsp => ?_, fun doc hy hurl => ⟨fun sch hf => ?_, fun e hf => ?_, fun e hf => ?_⟩,
    fun doc hy hurl hsp => ⟨fun sch hj => ?_, fun e hj => ?_⟩, fun d => rfl⟩
  · exact validate_contract_resolveErr_eq env c (some sp) _ hc
      (by simp [resolveSchemaRef, hurl, hsp])
  · exact validate_contract_ok_eq env c (some sp) true sp doc sch hc
      (by simp [resolveSchemaRef, hurl]) hy (by simp [loadSchema, hf])
  · exact validate_contract_loadErr_eq env c (some sp) true sp doc _ hc
      (by simp [resolveSchemaRef, hurl]) hy (by simp [loadSchema, hf])
  · exact validate_contract_loadErr_eq env c (some sp) true sp doc _ hc
      (by simp [resolveSchemaRef, hurl]) hy (by simp [loadSchema, hf])
  · exact validate_contract_ok_eq env c (some sp) false sp doc sch hc
      (resolveSchemaRef_local env sp hurl hsp) hy (by simp [loadSchema, hj])
  · exact validate_contract_loadErr_eq env c (some sp) false sp doc _ hc
      (resolveSchemaRef_local env sp hurl hsp) hy (by simp [loadSchema, hj])

/-- Witness for Claim C4: in `envContractOnly` the conventional paths do
not exist either, yet the explicit missing reference fails with the
distinct message. -/
theorem explicit_schema_no_fallback_witness :
    validate_contract envContractOnly ("contract.odcs.yaml") (some ("missing.json"))
      = (false, ["Schema file not found: " ++ "missing.json"]) :=
  (explicit_schema_no_fallback envContractOnly ("contract.odcs.yaml") ("missing.json")
    (by decide)).1 (by decide) (by decide)

/-- A missing contract file short-circuits the whole run. -/
lemma validate_contract_notFound (env : Env) (c : String) (sArg : Option String)
    (h : env.pathExists c = false) :
    validate_contract env c sArg = (false, ["Contract file not found: " ++ c]) := by
  unfold validate_contract
  rw [h]
  rfl

/-- A YAML parse error on the contract short-circuits the run after schema
resolution. -/
lemma validate_contract_yamlErr_eq (env : Env) (c : String) (sArg : Option String)
    (b : Bool) (sp e : String) (hc : env.pathExists c = true)
    (hr : resolveSchemaRef env sArg = .ok (b, sp))
    (hy : env.yamlLoad c = .error e) :
    validate_contract env c sArg = (false, ["Invalid YAML: " ++ e]) := by
  unfold validate_contract
  rw [hc]
  simp only [Bool.not_true, Bool.false_eq_true, if_false, hr, hy]

/-- Replacing the validator library changes nothing about schema-file
discovery. -/
lemma find_schema_file_validator_irrel (env : Env) (f : Schema → Yaml → List ValidationError) :
    find_schema_file (envWithValidator env f) = find_schema_file env := rfl

/-- Replacing the validator library changes nothing about schema-reference
resolution. -/
lemma resolveSchemaRef_validator_irrel (env : Env)
    (f : Schema → Yaml → List ValidationError) (sArg : Option String) :
    resolveSchemaRef (envWithValidator env f) sArg = resolveSchemaRef env sArg := by
  cases sArg <;> rfl

/-- Replacing the validator library changes nothing about schema loading. -/
lemma loadSchema_validator_irrel (env : Env)
    (f : Schema → Yaml → List ValidationError) (b : Bool) (sp : String) :
    loadSchema (envWithValidator env f) b sp = loadSchema env b sp := rfl

/-- Each early-return of schema-reference resolution carries one of the
load/resolution error messages. -/
lemma resolveSchemaRef_error_msg (env : Env) (sArg : Option String)
    (r : Bool × List String) (h : resolveSchemaRef env sArg = .error r) :
    ∃ m, r = (false, [m]) ∧ isLoadErrorMessage m := by
  rcases sArg with _ | sp
  · simp only [resolveSchemaRef] at h
    rcases hf : (find_schema_file env).2 with _ | p
    · simp only [hf, Except.error.injEq] at h
      subst h
      exact ⟨_, rfl, Or.inr (Or.inr (Or.inl rfl))⟩
    · simp [hf] at h
  · simp only [resolveSchemaRef] at h
    split at h
    · simp at h
    · split at h
      · simp only [Except.error.injEq] at h
        subst h
        exact ⟨_, rfl, Or.inr (Or.inl ⟨sp, rfl⟩)⟩
      · simp at h

/-- Each schema-load failure message is one of the load-error messages. -/
lemma loadSchema_error_msg (env : Env) (b : Bool) (sp e : String)
    (h : loadSchema env b sp = .error e) : isLoadErrorMessage e := by
  unfold loadSchema at h
  cases b
  · rcases hj : env.jsonLoadFile sp with msg | s
    · simp only [Bool.false_eq_true, if_false, hj, Except.error.injEq] at h
      subst h
      exact Or.inr (Or.inr (Or.inr (Or.inr (Or.inl ⟨msg, rfl⟩))))
    · simp [hj] at h
  · rcases hf : env.urlFetch sp with s | msg | msg
    · simp [hf] at h
    · simp only [if_true, hf, Except.error.injEq] at h
      subst h
      refine Or.inr (Or.inr (Or.inr (Or.inr (Or.inr ⟨sp ++ (": " ++ msg), ?_⟩))))
      simp [String.append_assoc]
    · simp only [if_true, hf, Except.error.injEq] at h
      subst h
      exact Or.inr (Or.inr (Or.inr (Or.inr (Or.inl ⟨msg, rfl⟩))))

/-- Each load-error message starts with a non-space character. -/
lemma isLoadErrorMessage_head (m : String) (h : isLoadErrorMessage m) :
    ∃ ch, m.data.head? = some ch ∧ ch ≠ ' ' := by
  rcases h with ⟨s, rfl⟩ | ⟨s, rfl⟩ | rfl | ⟨s, rfl⟩ | ⟨s, rfl⟩ | ⟨s, rfl⟩
  · exact ⟨'C', head_data_append _ _ _ rfl, by decide⟩
  · exact ⟨'S', head_data_append _ _ _ rfl, by decide⟩
  · exact ⟨'C', head_data_append _ _ _ rfl, by decide⟩
  · exact ⟨'I', head_data_append _ _ _ rfl, by decide⟩
  · exact ⟨'I', head_data_append _ _ _ rfl, by decide⟩
  · exact ⟨'C', head_data_append _ _ _ rfl, by decide⟩

/-- Packaging step for load-failure runs: from a validator-independent
result equation and a load-error message classification, derive the full
abort characterisation. -/
lemma loadError_conclusion (env : Env) (c : String) (sArg : Option String) (m : String)
    (hall : ∀ f, validate_contract (envWithValidator env f) c sArg = (false, [m]))
    (hmsg : isLoadErrorMessage m) :
    ∃ m', validate_contract env c sArg = (false, [m'])
      ∧ isLoadErrorMessage m'
      ∧ m'.data.head? ≠ some ' '
      ∧ (∀ p mm, m' ≠ "  [" ++ p ++ "] " ++ mm)
      ∧ (∀ f, validate_contract (envWithValidator env f) c sArg = (false, [m']))
      ∧ validateMainExit env c sArg = 1 := by
  have heq : validate_contract env c sArg = (false, [m]) := hall env.iterErrors
  rcases isLoadErrorMessage_head m hmsg with ⟨ch, hch, hne⟩
  refine ⟨m, heq, hmsg, ?_, ?_, hall, ?_⟩
  · rw [hch]
    intro hcon
    exact hne (by injection hcon)
  · intro p mm hcon
    have hv := violation_line_head p mm
    rw [← hcon, hch] at hv
    exact hne (by injection hv)
  · unfold validateMainExit
    rw [heq]
    rfl

/-- When the contract exists, the schema reference resolves, and both
documents load, the input is not a load-failure input. -/
lemma no_load_failure_of_all_ok (env : Env) (c : String) (sArg : Option String)
    (b : Bool) (sp : String) (doc : Yaml) (sch : Schema)
    (hc : env.pathExists c = true)
    (hr : resolveSchemaRef env sArg = .ok (b, sp))
    (hy : env.yamlLoad c = .ok doc)
    (hl : loadSchema env b sp = .ok sch) :
    ¬ loadFailureInput env c sArg := by
  intro h
  rcases h with h | ⟨e, he⟩ | h | h
  · rw [hc] at h
    exact Bool.noConfusion h
  · rw [he] at hy
    exact Except.noConfusion hy
  · rcases sArg with _ | sp0
    · simp only [schemaResolutionFails] at h
      simp [resolveSchemaRef, h] at hr
    · simp only [schemaResolutionFails] at h
      rcases h with ⟨hu, hp⟩
      simp [resolveSchemaRef, hu, hp] at hr
  · rcases sArg with _ | sp0
    · simp only [schemaLoadFails] at h
      rcases h with ⟨p, hp, e, he⟩
      simp only [resolveSchemaRef, hp, Except.ok.injEq, Prod.mk.injEq] at hr
      rcases hr with ⟨hb, hsp2⟩
      subst hb
      subst hsp2
      simp [loadSchema, he] at hl
    · simp only [schemaLoadFails] at h
      rcases h with ⟨hu, hfetch⟩ | ⟨hu, hp, e, he⟩
      · simp only [resolveSchemaRef, hu, if_true, Except.ok.injEq, Prod.mk.injEq] at hr
        rcases hr with ⟨hb, hsp2⟩
        subst hb
        subst hsp2
        rcases hfetch with ⟨e, he⟩ | ⟨e, he⟩ <;> simp [loadSchema, he] at hl
      · simp only [resolveSchemaRef, hu, hp, Bool.false_eq_true, if_false, Bool.not_true,
          Except.ok.injEq, Prod.mk.injEq] at hr
        rcases hr with ⟨hb, hsp2⟩
        subst hb
        subst hsp2
        simp [loadSchema, he] at hl

/-- Claim C1: on every input whose contract file is missing or unparsable,
or whose schema cannot be resolved or parsed, the result of
`validate_contract` is a single load/resolution error message — never a
ValidationOutcome with rendered violations: the message is one of the six
load-error texts, is textually distinct from every violation line, the
result does not depend on the schema validator at all (validation never
ran), and the process exits non-zero. -/
theorem load_failures_abort_without_outcome (env : Env) (c : String)
    (sArg : Option String) (h : loadFailureInput env c sArg) :
    ∃ m, validate_contract env c sArg = (false, [m])
      ∧ isLoadErrorMessage m
      ∧ m.data.head? ≠ some ' '
      ∧ (∀ p mm, m ≠ "  [" ++ p ++ "] " ++ mm)
      ∧ (∀ f, validate_contract (envWithValidator env f) c sArg = (false, [m]))
      ∧ validateMainExit env c sArg = 1 := by
  by_cases hpc : env.pathExists c = true
  case neg =>
    have hpc' : env.pathExists c = false := by
      revert hpc
      cases env.pathExists c <;> simp
    exact loadError_conclusion env c sArg _
      (fun f => validate_contract_notFound (envWithValidator env f) c sArg hpc')
      (Or.inl ⟨c, rfl⟩)
  case pos =>
    cases hres : resolveSchemaRef env sArg with
    | error r =>
      rcases resolveSchemaRef_error_msg env sArg r hres with ⟨m, hr2, hmsg⟩
      subst hr2
      exact loadError_conclusion env c sArg m
        (fun f => validate_contract_resolveErr_eq (envWithValidator env f) c sArg _ hpc
          (by rw [resolveSchemaRef_validator_irrel]; exact hres))
        hmsg
    | ok pair =>
      obtain ⟨b, sp⟩ := pair
      cases hy : env.yamlLoad c with
      | error e =>
        exact loadError_conclusion env c sArg _
          (fun f => validate_contract_yamlErr_eq (envWithValidator env f) c sArg b sp e hpc
            (by rw [resolveSchemaRef_validator_irrel]; exact hres) hy)
          (Or.inr (Or.inr (Or.inr (Or.inl ⟨e, rfl⟩))))
      | ok doc =>
        cases hl : loadSchema env b sp with
        | error e =>
          exact loadError_conclusion env c sArg e
            (fun f => validate_contract_loadErr_eq (envWithValidator env f) c sArg b sp doc e hpc
              (by rw [resolveSchemaRef_validator_irrel]; exact hres) hy
              (by rw [loadSchema_validator_irrel]; exact hl))
            (loadSchema_error_msg env b sp e hl)
        | ok sch =>
          exact absurd h (no_load_failure_of_all_ok env c sArg b sp doc sch hpc hres hy hl)

/-- Witness for Claim C1: in `envAllMissing` the contract file is
missing. -/
theorem load_failures_abort_without_outcome_witness :
    ∃ m, validate_contract envAllMissing ("contract.odcs.yaml") none = (false, [m])
      ∧ isLoadErrorMessage m
      ∧ m.data.head? ≠ some ' '
      ∧ (∀ p mm, m ≠ "  [" ++ p ++ "] " ++ mm)
      ∧ (∀ f, validate_contract (envWithValidator envAllMissing f) ("contract.odcs.yaml") none
          = (false, [m]))
      ∧ validateMainExit envAllMissing ("contract.odcs.yaml") none = 1 :=
  load_failures_abort_without_outcome envAllMissing ("contract.odcs.yaml") none (Or.inl rfl)

/-- Counterexample for Claim C7 as stated: a concrete run renders the
root-level violation as "  [root] boom", which carries a two-space indent
and therefore is not literally of the form `[<path>] <message>` (any
string of that form starts with an opening bracket). -/
theorem violation_line_indent_counterexample :
    validate_contract envOneRootError ("contract.odcs.yaml") (some ("schema.json"))
        = (false, ["  [root] boom"])
      ∧ ¬ ∃ p m, ("  [root] boom" : String) = "[" ++ p ++ "] " ++ m := by
  constructor
  · decide
  · rintro ⟨p, m, hcon⟩
    have hl : ("[" ++ p ++ "] " ++ m).data.head? = some '[' :=
      head_data_append _ _ _ (head_data_append _ _ _ (head_data_append _ _ _ rfl))
    rw [← hcon] at hl
    have h2 : (("  [root] boom" : String)).data.head? = some ' ' := rfl
    rw [h2] at hl
    exact absurd hl (by decide)

/-- Claim C7 (amended): every rendered violation line has the two-space
indented form `  [<path>] <message>`, where the path is the sequence of
property names and array indices from the document root joined by
" -> ", and a root-level violation (empty path) uses the sentinel
"root". -/
theorem violation_line_format (env : Env) (c sp : String) (doc : Yaml) (sch : Schema)
    (hc : env.pathExists c = true) (hurl : startsWithHttp sp = false)
    (hsp : env.pathExists sp = true) (hy : env.yamlLoad c = .ok doc)
    (hj : env.jsonLoadFile sp = .ok sch) :
    ∀ line ∈ (validate_contract env c (some sp)).2,
      ∃ err ∈ env.iterErrors sch doc,
        line = "  [" ++ (if err.absolutePath.isEmpty then "root"
            else String.intercalate (" -> ") (err.absolutePath.map PathElem.toStr))
          ++ "] " ++ err.message := by
  rw [validate_contract_ok_eq env c (some sp) false sp doc sch hc
    (resolveSchemaRef_local env sp hurl hsp) hy (loadSchema_local_ok env sp sch hj)]
  simp only [runValidation]
  split
  · simp
  · intro line hline
    simp only at hline
    rcases List.mem_map.mp hline with ⟨err, hmem, rfl⟩
    exact ⟨err, hmem, rfl⟩

/-- Witness for the amended Claim C7 at a concrete environment and a
concrete rendered root-level violation line. -/
theorem violation_line_format_witness :
    ∃ err ∈ envHappy.iterErrors (.map []) .null,
      ("  [root] None is not of type 'object'" : String)
        = "  [" ++ (if err.absolutePath.isEmpty then "root"
            else String.intercalate (" -> ") (err.absolutePath.map PathElem.toStr))
          ++ "] " ++ err.message :=
  violation_line_format envHappy ("contract.odcs.yaml") ("schema.json") .null (.map [])
    rfl (by decide) rfl rfl rfl ("  [root] None is not of type 'object'") (by decide)

/-- A pre-existing output file makes `generate_contract` report the
existence error and leave the filesystem untouched. -/
lemma generate_contract_exists_refused (genv : GenEnv) (fs : GenFS) (p : String)
    (n d : Option String) (m : Bool) (hex : (fs.files p).isSome = true) :
    generate_contract genv fs p n d m
      = ⟨fs, none, ["❌ Error: File already exists: " ++ p]⟩ := by
  unfold generate_contract
  rw [hex]
  rfl

/-- A successful run writes the output file. -/
lemma generate_contract_creates (genv : GenEnv) (fs : GenFS) (p : String)
    (n d : Option String) (m : Bool) (hnone : fs.files p = none)
    (hwf : genv.writeFails = none) :
    ((generate_contract genv fs p n d m).fs.files p).isSome = true := by
  unfold generate_contract
  rw [hnone, hwf]
  simp

/-- Claim C8: the scaffold generator refuses to overwrite: on a
pre-existing output path it reports a failure, changes nothing on the
filesystem (no file content touched, no directory created) and the
process exits 1; consequently a second invocation on a path just created
by a first invocation fails and leaves the first file intact. -/
theorem scaffold_refuses_overwrite (genv genv2 : GenEnv) (fs : GenFS) (p : String)
    (n d n2 d2 : Option String) (m m2 : Bool) :
    ((fs.files p).isSome = true →
      generate_contract genv fs p n d m
          = ⟨fs, none, ["❌ Error: File already exists: " ++ p]⟩
        ∧ newContractMainExit genv fs p n d m = 1)
    ∧ (fs.files p = none → genv.writeFails = none →
        ((generate_contract genv fs p n d m).fs.files p).isSome = true
        ∧ generate_contract genv2 (generate_contract genv fs p n d m).fs p n2 d2 m2
            = ⟨(generate_contract genv fs p n d m).fs, none,
               ["❌ Error: File already exists: " ++ p]⟩
        ∧ newContractMainExit genv2 (generate_contract genv fs p n d m).fs p n2 d2 m2 = 1) := by
  refine ⟨fun hex => ?_, fun hnone hwf => ?_⟩
  · have h1 := generate_contract_exists_refused genv fs p n d m hex
    refine ⟨h1, ?_⟩
    unfold newContractMainExit
    rw [h1]
    rfl
  · have hsome := generate_contract_creates genv fs p n d m hnone hwf
    have h2 := generate_contract_exists_refused genv2
      (generate_contract genv fs p n d m).fs p n2 d2 m2 hsome
    refine ⟨hsome, h2, ?_⟩
    unfold newContractMainExit
    rw [h2]
    rfl

/-- Witness for Claim C8: generating twice at the same fresh path. -/
theorem scaffold_refuses_overwrite_witness :
    ((generate_contract genvW fsEmpty ("data/orders.odcs.yaml") none none false).fs.files
        ("data/orders.odcs.yaml")).isSome = true
    ∧ generate_contract genvW
        (generate_contract genvW fsEmpty ("data/orders.odcs.yaml") none none false).fs
        ("data/orders.odcs.yaml") none none true
      = ⟨(generate_contract genvW fsEmpty ("data/orders.odcs.yaml") none none false).fs,
         none, ["❌ Error: File already exists: " ++ "data/orders.odcs.yaml"]⟩
    ∧ newContractMainExit genvW
        (generate_contract genvW fsEmpty ("data/orders.odcs.yaml") none none false).fs
        ("data/orders.odcs.yaml") none none true = 1 :=
  (scaffold_refuses_overwrite genvW genvW fsEmpty ("data/orders.odcs.yaml")
    none none none none false true).2 rfl rfl

/-- Claim C9: in minimal mode the generated result is entirely independent
of the --name and --domain arguments: for a fixed environment, filesystem
and output path, any two minimal-mode invocations coincide, because the
minimal template is filled only from the generated identifier and the
table name derived from the output filename. -/
theorem minimal_scaffold_ignores_name_domain (genv : GenEnv) (fs : GenFS) (p : String)
    (n1 d1 n2 d2 : Option String) :
    generate_contract genv fs p n1 d1 true = generate_contract genv fs p n2 d2 true := by
  unfold generate_contract
  split
  · rfl
  · dsimp only
